import Mathlib

/-!
Shallow embedding of the Daymark scoring engine.

Sources:
* `florida_scoring.py` — the pure Florida scoring functions (sub-score
  normalizers, composite calculators, trend calculators, label classifier).
* `app/main.py` — the county compute orchestration
  (`compute_insurer_fl_county`) and the daily-status aggregator (`daymark`).

Python floats are modelled as rationals (ℚ); every comparison and weight in
the source is an exact decimal, so the step-function and weighted-blend
semantics carry over unchanged.  Python bools are `Bool`, strings `String`.
-/

namespace Daymark

/-- `clamp(x, lo=0, hi=100)` from florida_scoring.py: `max(lo, min(hi, x))`. -/
def clamp (x : ℚ) (lo : ℚ := 0) (hi : ℚ := 100) : ℚ :=
  max lo (min hi x)

/-- `FloridaInputs` dataclass from florida_scoring.py. -/
structure FloridaInputs where
  month : ℤ
  heat_index_f : ℚ
  rain_24h_in : ℚ
  wind_sust_mph : ℚ
  tropical_flag : Bool
  pop_density : ℚ

/-- `density_factor(pop_density)` from florida_scoring.py. -/
def density_factor (pop_density : ℚ) : ℚ :=
  if pop_density < 200 then 0.8
  else if pop_density < 800 then 1.0
  else 1.2

/-- `heat_score_fl(month, heat_index_f)` from florida_scoring.py.
The `month` argument is accepted but unused by the v1 bands. -/
def heat_score_fl (_month : ℤ) (heat_index_f : ℚ) : ℚ :=
  if heat_index_f ≤ 100 then 10
  else if heat_index_f ≤ 105 then 25
  else if heat_index_f ≤ 110 then 45
  else if heat_index_f ≤ 115 then 65
  else if heat_index_f ≤ 120 then 80
  else 95

/-- `_rain_score_basic(r)` from florida_scoring.py. -/
def rain_score_basic (r : ℚ) : ℚ :=
  if r < 1 then 10
  else if r < 2 then 30
  else if r < 4 then 55
  else if r < 6 then 75
  else 90

/-- `rain_score_fl(rain_24h_in, tropical_flag)` from florida_scoring.py. -/
def rain_score_fl (rain_24h_in : ℚ) (tropical_flag : Bool) : ℚ :=
  if tropical_flag then max 70 (rain_score_basic rain_24h_in)
  else rain_score_basic rain_24h_in

/-- `_wind_score_basic(w)` from florida_scoring.py. -/
def wind_score_basic (w : ℚ) : ℚ :=
  if w < 20 then 5
  else if w < 36 then 30
  else if w < 51 then 55
  else if w < 71 then 75
  else 95

/-- `wind_score_fl(wind_sust_mph, tropical_flag)` from florida_scoring.py. -/
def wind_score_fl (wind_sust_mph : ℚ) (tropical_flag : Bool) : ℚ :=
  if tropical_flag = true ∧ wind_sust_mph ≥ 35 then
    max 75 (wind_score_basic wind_sust_mph)
  else wind_score_basic wind_sust_mph

/-- `compute_wps_fl(heat, rain, wind)` from florida_scoring.py:
Heat 50%, Rain 30%, Wind 20%, clamped. -/
def compute_wps_fl (heat rain wind : ℚ) : ℚ :=
  clamp (0.50 * heat + 0.30 * rain + 0.20 * wind)

/-- `compute_iss_fl(heat_score, pop_density, persistence_0_100)` from
florida_scoring.py. -/
def compute_iss_fl (heat_score pop_density persistence_0_100 : ℚ) : ℚ :=
  clamp (0.70 * (heat_score * density_factor pop_density) + 0.30 * persistence_0_100)

/-- `compute_cai_fl(wps, iss, das)` from florida_scoring.py. -/
def compute_cai_fl (wps iss das : ℚ) : ℚ :=
  clamp (0.40 * wps + 0.45 * iss + 0.15 * das)

/-- `sts_from_delta_cai(delta_3d)` from florida_scoring.py. -/
def sts_from_delta_cai (delta_3d : ℚ) : ℚ :=
  if delta_3d ≤ 2 then 10
  else if delta_3d ≤ 6 then 30
  else if delta_3d ≤ 10 then 55
  else if delta_3d ≤ 15 then 75
  else if delta_3d ≤ 22 then 90
  else 100

/-- `vex_from_range(range_5d)` from florida_scoring.py. -/
def vex_from_range (range_5d : ℚ) : ℚ :=
  if range_5d ≤ 6 then 10
  else if range_5d ≤ 12 then 35
  else if range_5d ≤ 18 then 60
  else if range_5d ≤ 26 then 80
  else 95

/-- `fpc_from_forecast(forecast_wps_3d_avg, wind_score_max_3d, tropical_flag)`
from florida_scoring.py: a priority cascade, first true branch wins. -/
def fpc_from_forecast (forecast_wps_3d_avg wind_score_max_3d : ℚ)
    (tropical_flag : Bool) : ℚ :=
  if tropical_flag then 95
  else if forecast_wps_3d_avg ≥ 65 ∨ wind_score_max_3d ≥ 75 then 80
  else if 55 ≤ forecast_wps_3d_avg ∧ forecast_wps_3d_avg ≤ 64 then 60
  else if 45 ≤ forecast_wps_3d_avg ∧ forecast_wps_3d_avg ≤ 54 then 35
  else 15

/-- `apply_florida_wind_nuance(...)` from florida_scoring.py: the Rapid Wind
Escalation Adjustment. -/
def apply_florida_wind_nuance (sts wind_today_score wind_48h_ago_score
    forecast_wps_3d_avg : ℚ) (tropical_flag : Bool) : ℚ :=
  if (wind_today_score - wind_48h_ago_score ≥ 25) ∧ wind_today_score ≥ 55 ∧
      (tropical_flag = true ∨ forecast_wps_3d_avg ≥ 55) then
    min (sts + 10) 100
  else sts

/-- `compute_av(sts, vex, fpc)` from florida_scoring.py. -/
def compute_av (sts vex fpc : ℚ) : ℚ :=
  clamp (0.50 * sts + 0.30 * vex + 0.20 * fpc)

/-- `label_state(cai, av)` from florida_scoring.py: first-match cascade. -/
def label_state (cai av : ℚ) : String :=
  if cai ≥ 85 then "Surge Risk"
  else if cai ≥ 70 ∧ av ≥ 56 then "High Risk + Accelerating"
  else if av ≥ 76 then "Momentum Surge"
  else if cai ≥ 55 ∨ av ≥ 56 then "Building"
  else "Stable"

/-- Python `max` over a nonempty list, as used on `cai_history_5d` in
`compute_insurer_fl_county` (app/main.py). The `[]` case is unreachable there. -/
def list_max : List ℚ → ℚ
  | [] => 0
  | [x] => x
  | x :: y :: xs => max x (list_max (y :: xs))

/-- Python `min` over a nonempty list, as used on `cai_history_5d` in
`compute_insurer_fl_county` (app/main.py). The `[]` case is unreachable there. -/
def list_min : List ℚ → ℚ
  | [] => 0
  | [x] => x
  | x :: y :: xs => min x (list_min (y :: xs))

/-- Result record of `compute_insurer_fl_county` (app/main.py): the `scores`
map entries plus the `county` and `state` fields of the returned dict. -/
structure InsurerCountyResult where
  county : String
  heat : ℚ
  rain : ℚ
  wind : ℚ
  wps : ℚ
  iss : ℚ
  das : ℚ
  cai : ℚ
  sts : ℚ
  vex : ℚ
  fpc : ℚ
  av : ℚ
  state : String

/-- `compute_insurer_fl_county(county)` from app/main.py.  The source builds
`inputs_today` from `datetime.utcnow().month` and placeholder constants
(heat_index_f=92, rain_24h_in=0.2, wind_sust_mph=18, tropical_flag=False,
pop_density=1200); the month is taken here as a parameter since it is the only
environment-dependent input. -/
def compute_insurer_fl_county (month : ℤ) (county : String) : InsurerCountyResult :=
  let inputs_today : FloridaInputs :=
    { month := month, heat_index_f := 92, rain_24h_in := 0.2,
      wind_sust_mph := 18, tropical_flag := false, pop_density := 1200 }
  let heat := heat_score_fl inputs_today.month inputs_today.heat_index_f
  let rain := rain_score_fl inputs_today.rain_24h_in inputs_today.tropical_flag
  let wind := wind_score_fl inputs_today.wind_sust_mph inputs_today.tropical_flag
  let wps := compute_wps_fl heat rain wind
  let persistence : ℚ := 40
  let iss := compute_iss_fl heat inputs_today.pop_density persistence
  let das : ℚ := 10
  let cai := compute_cai_fl wps iss das
  let cai_history_5d : List ℚ := [45, 47, 50, 54, cai]
  let delta_3d := cai - cai_history_5d.getD 1 0
  let sts := sts_from_delta_cai delta_3d
  let range_5d := list_max cai_history_5d - list_min cai_history_5d
  let vex := vex_from_range range_5d
  let forecast_wps_3d_avg := wps
  let wind_score_max_3d := wind
  let fpc := fpc_from_forecast forecast_wps_3d_avg wind_score_max_3d inputs_today.tropical_flag
  let wind_48h_ago_score : ℚ := 30
  let sts := apply_florida_wind_nuance sts wind wind_48h_ago_score
    forecast_wps_3d_avg inputs_today.tropical_flag
  let av := compute_av sts vex fpc
  let state_label := label_state cai av
  { county := county, heat := heat, rain := rain, wind := wind, wps := wps,
    iss := iss, das := das, cai := cai, sts := sts, vex := vex, fpc := fpc,
    av := av, state := state_label }

/-- Response record of the `daymark` route in app/main.py (the pure part:
status, score, drivers, gear list). -/
structure DailyStatus where
  status : String
  score : ℤ
  drivers : List String
  add_items : List String

/-- The de-dupe step of `daymark` in app/main.py:
`[x for x in add_items if not (x in seen or seen.add(x))]` — a left fold
carrying the seen items; the seen set and the output coincide as a list. -/
def dedup_first (l : List String) : List String :=
  l.foldl (fun acc x => if x ∈ acc then acc else acc ++ [x]) []

/-- The weather-alert block of `daymark` in app/main.py: score increment,
driver string, and gear contributions for 0, 1, and ≥2 active alerts. -/
def alert_block (alert_count : ℕ) : ℤ × List String × List String :=
  if alert_count = 0 then
    (0, ["No active weather alerts"], [])
  else if alert_count = 1 then
    (20, ["1 active weather alert"],
      ["rain shell", "phone waterproof pouch", "small flashlight"])
  else
    (35, [toString alert_count ++ " active weather alerts"],
      ["rain shell", "phone waterproof pouch", "small flashlight", "power bank"])

/-- The air-quality block of `daymark` in app/main.py: driver string and gear
contribution.  The source block contains no `score +=` statement. -/
def aqi_block (aqi : Option ℤ) : List String × List String :=
  match aqi with
  | none => (["Air quality data unavailable"], [])
  | some a =>
    if a ≤ 50 then (["Air quality: Good (AQI " ++ toString a ++ ")"], [])
    else if a ≤ 100 then (["Air quality: Moderate (AQI " ++ toString a ++ ")"], [])
    else (["Air quality: Unhealthy (AQI " ++ toString a ++ ")"],
      ["N95 mask (air quality)"])

/-- The gear list of `daymark` (app/main.py) as accumulated before the
de-dupe step: alert-block contributions then air-quality contributions. -/
def daymark_add_items_raw (alert_count : ℕ) (aqi : Option ℤ) : List String :=
  (alert_block alert_count).2.2 ++ (aqi_block aqi).2

/-- The overall-status tiering of `daymark` in app/main.py. -/
def status_tier (score : ℤ) : String :=
  if score ≤ 24 then "GREEN"
  else if score ≤ 44 then "YELLOW"
  else if score ≤ 64 then "ORANGE"
  else "RED"

/-- The `daymark` route handler of app/main.py, with the two external feeds
(NWS alert count, AirNow AQI) abstracted as inputs. -/
def daymark (alert_count : ℕ) (aqi : Option ℤ) : DailyStatus :=
  let score := (alert_block alert_count).1
  { status := status_tier score
    score := score
    drivers := (alert_block alert_count).2.1 ++ (aqi_block aqi).1
    add_items := dedup_first (daymark_add_items_raw alert_count aqi) }

/-- Linear interpolation `Ilow + (Ihigh-Ilow)·(c-Clow)/(Chigh-Clow)` of one
AQI breakpoint segment. -/
def aqi_linear (ilow ihigh clow chigh c : ℚ) : ℚ :=
  ilow + (ihigh - ilow) * (c - clow) / (chigh - clow)

/-- Modelled from the spec: `pm25ToAqi` has no definition under src/ (only the
spec describes it).  Per the spec it is an EPA-style piecewise-linear
interpolation across the 7 standard PM2.5 breakpoint pairs
(Clow, Chigh, Ilow, Ihigh); negative input is clamped to 0; values above the
highest concentration breakpoint 500.4 return the sentinel AQI 500. -/
def pm25_piecewise (c : ℚ) : ℚ :=
  if 500.4 < c then 500
  else if c ≤ 12 then aqi_linear 0 50 0 12 c
  else if c ≤ 35.4 then aqi_linear 51 100 12.1 35.4 c
  else if c ≤ 55.4 then aqi_linear 101 150 35.5 55.4 c
  else if c ≤ 150.4 then aqi_linear 151 200 55.5 150.4 c
  else if c ≤ 250.4 then aqi_linear 201 300 150.5 250.4 c
  else if c ≤ 350.4 then aqi_linear 301 400 250.5 350.4 c
  else aqi_linear 401 500 350.5 500.4 c

/-- Modelled from the spec: `pm25ToAqi` = the breakpoint table applied to the
input clamped below at 0. -/
def pm25_to_aqi (pm : ℚ) : ℚ :=
  pm25_piecewise (max pm 0)

/-- The label cascade as worded by the spec, for comparison with
`label_state`: first-match over {cai≥85 → Surge Risk; cai≥70 ∧ av≥56 →
High Risk + Accelerating; av≥76 → Momentum Surge; cai≥55 ∨ av≥56 → Building;
else Stable}. -/
def label_state_spec (cai av : ℚ) : String :=
  if cai ≥ 85 then "Surge Risk"
  else if cai ≥ 70 ∧ av ≥ 56 then "High Risk + Accelerating"
  else if av ≥ 76 then "Momentum Surge"
  else if cai ≥ 55 ∨ av ≥ 56 then "Building"
  else "Stable"

/-- First-occurrence deduplication as worded by the spec (no duplicate
entries, first-seen order preserved), stated recursively: keep the head, then
deduplicate the tail with all copies of the head removed.  `dedup_first` (the
seen-set fold of app/main.py) is checked against this. -/
def dedup_spec : List String → List String
  | [] => []
  | x :: xs => x :: dedup_spec (xs.filter (fun y => y ≠ x))
termination_by l => l.length
decreasing_by
  simp only [List.length_cons]
  exact Nat.lt_succ_of_le (List.length_filter_le _ _)

/-!  ## Theorems  -/

/-- C1: the county compute operation, run with the documented placeholder
inputs (heat_index_f=92, rain_24h_in=0.2, wind_sust_mph=18,
tropical_flag=false, pop_density=1200, persistence=40, das=10, any month),
produces heat=10, rain=10, wind=5, wps=9, iss=20.4, cai=14.28, and state
label "Stable". -/
theorem county_compute_placeholder_values (month : ℤ) (county : String) :
    (compute_insurer_fl_county month county).heat = 10 ∧
    (compute_insurer_fl_county month county).rain = 10 ∧
    (compute_insurer_fl_county month county).wind = 5 ∧
    (compute_insurer_fl_county month county).wps = 9 ∧
    (compute_insurer_fl_county month county).iss = 20.4 ∧
    (compute_insurer_fl_county month county).cai = 14.28 ∧
    (compute_insurer_fl_county month county).state = "Stable" := by
  refine ⟨?_, ?_, ?_, ?_, ?_, ?_, ?_⟩ <;>
    norm_num [compute_insurer_fl_county, heat_score_fl, rain_score_fl,
      wind_score_fl, rain_score_basic, wind_score_basic, compute_wps_fl,
      compute_iss_fl, compute_cai_fl, clamp, density_factor,
      sts_from_delta_cai, vex_from_range, fpc_from_forecast,
      apply_florida_wind_nuance, compute_av, label_state, list_max, list_min,
      min_def, max_def]

/-- C2: `label_state` is exactly the first-match cascade worded by the spec;
in particular `label_state 90 10 = "Surge Risk"` (CAI ≥ 85 pre-empts all
other checks even when AV is low) and `label_state 50 80 = "Momentum
Surge"`. -/
theorem label_state_cascade_spec :
    (∀ cai av : ℚ, label_state cai av = label_state_spec cai av) ∧
    label_state 90 10 = "Surge Risk" ∧
    label_state 50 80 = "Momentum Surge" :=
  ⟨fun _ _ => rfl, by norm_num [label_state], by norm_num [label_state]⟩

/-- C3: `apply_florida_wind_nuance` returns `sts + 10` capped at 100 exactly
when (wind_today - wind_48h_ago) ≥ 25 and wind_today ≥ 55 and (tropical or
forecast_wps_3d_avg ≥ 55), and otherwise returns `sts` unchanged; in
particular it maps (30, 60, 30, 60, false) to 40 and (30, 60, 30, 50, false)
to 30. -/
theorem wind_nuance_rwea_spec :
    (∀ (sts wt w48 f : ℚ) (tf : Bool),
      apply_florida_wind_nuance sts wt w48 f tf =
        if (wt - w48 ≥ 25) ∧ wt ≥ 55 ∧ (tf = true ∨ f ≥ 55) then
          min (sts + 10) 100
        else sts) ∧
    apply_florida_wind_nuance 30 60 30 60 false = 40 ∧
    apply_florida_wind_nuance 30 60 30 50 false = 30 :=
  ⟨fun _ _ _ _ _ => rfl,
   by norm_num [apply_florida_wind_nuance],
   by norm_num [apply_florida_wind_nuance]⟩

/-- C4: `heat_score_fl` is the step function over Fahrenheit bands with
inclusive upper bounds {≤100→10, ≤105→25, ≤110→45, ≤115→65, ≤120→80,
else→95}, does not depend on the month argument, and is boundary-exact:
value 10 at 100, 25 at 100.1, 95 at 121, for every month. -/
theorem heat_score_band_spec :
    (∀ (m : ℤ) (h : ℚ), heat_score_fl m h =
      if h ≤ 100 then 10
      else if h ≤ 105 then 25
      else if h ≤ 110 then 45
      else if h ≤ 115 then 65
      else if h ≤ 120 then 80
      else 95) ∧
    (∀ (m₁ m₂ : ℤ) (h : ℚ), heat_score_fl m₁ h = heat_score_fl m₂ h) ∧
    (∀ m : ℤ, heat_score_fl m 100 = 10 ∧ heat_score_fl m 100.1 = 25 ∧
      heat_score_fl m 121 = 95) :=
  ⟨fun _ _ => rfl, fun _ _ _ => rfl,
   fun _ => ⟨by norm_num [heat_score_fl], by norm_num [heat_score_fl],
     by norm_num [heat_score_fl]⟩⟩

/-- C5: for every rainfall amount r ≥ 0, `rain_score_fl r false` is the base
step function {<1→10, <2→30, <4→55, <6→75, else→90}, and `rain_score_fl r
true` is the maximum of 70 and that base value, hence ≥ 70; in particular
`rain_score_fl 0.5 false = 10` and `rain_score_fl 0.5 true = 70`. -/
theorem rain_score_band_spec :
    (∀ r : ℚ, 0 ≤ r →
      rain_score_fl r false = rain_score_basic r ∧
      rain_score_fl r true = max 70 (rain_score_basic r) ∧
      70 ≤ rain_score_fl r true) ∧
    rain_score_fl 0.5 false = 10 ∧ rain_score_fl 0.5 true = 70 :=
  ⟨fun r _ => ⟨rfl, rfl, le_max_left 70 (rain_score_basic r)⟩,
   by norm_num [rain_score_fl, rain_score_basic],
   by norm_num [rain_score_fl, rain_score_basic]⟩

/-- Witness for C5 at r = 0.5. -/
theorem rain_score_band_spec_witness :
    rain_score_fl 0.5 false = rain_score_basic 0.5 ∧
    rain_score_fl 0.5 true = max 70 (rain_score_basic 0.5) ∧
    70 ≤ rain_score_fl 0.5 true :=
  rain_score_band_spec.1 0.5 (by norm_num)

/-- C6: for every wind speed w ≥ 0, `wind_score_fl w flag` is the base step
function {<20→5, <36→30, <51→55, <71→75, else→95}, except that when the
tropical flag is set and w ≥ 35 the result is the maximum of 75 and the base
value; in particular `wind_score_fl 40 true = 75` and
`wind_score_fl 80 false = 95`. -/
theorem wind_score_band_spec :
    (∀ (w : ℚ) (flag : Bool), 0 ≤ w →
      wind_score_fl w flag =
        if flag = true ∧ w ≥ 35 then max 75 (wind_score_basic w)
        else wind_score_basic w) ∧
    wind_score_fl 40 true = 75 ∧ wind_score_fl 80 false = 95 :=
  ⟨fun _ _ _ => rfl,
   by norm_num [wind_score_fl, wind_score_basic],
   by norm_num [wind_score_fl, wind_score_basic]⟩

/-- Witness for C6 at w = 40, flag = true. -/
theorem wind_score_band_spec_witness :
    wind_score_fl 40 true =
      if (true : Bool) = true ∧ (40 : ℚ) ≥ 35 then max 75 (wind_score_basic 40)
      else wind_score_basic 40 :=
  wind_score_band_spec.1 40 true (by norm_num)

/-- C9: for every alert count and optional AQI value, the daily-status total
score is one of {0, 20, 35} (the AQI branch never changes the score), so the
returned status is always "GREEN" or "YELLOW" and the "ORANGE"/"RED" tiers
are unreachable. -/
theorem daymark_score_status_bounded (n : ℕ) (aqi : Option ℤ) :
    ((daymark n aqi).score = 0 ∨ (daymark n aqi).score = 20 ∨
      (daymark n aqi).score = 35) ∧
    (daymark n aqi).score = (daymark n none).score ∧
    ((daymark n aqi).status = "GREEN" ∨ (daymark n aqi).status = "YELLOW") := by
  have hsc : (daymark n aqi).score = (alert_block n).1 := rfl
  have hst : (daymark n aqi).status = status_tier (alert_block n).1 := rfl
  by_cases h0 : n = 0
  · subst h0
    exact ⟨Or.inl rfl, rfl, Or.inl rfl⟩
  · by_cases h1 : n = 1
    · subst h1
      exact ⟨Or.inr (Or.inl rfl), rfl, Or.inl rfl⟩
    · have hb : (alert_block n).1 = 35 := by
        simp [alert_block, h0, h1]
      refine ⟨Or.inr (Or.inr ?_), rfl, Or.inr ?_⟩
      · rw [hsc, hb]
      · rw [hst, hb]
        decide

/-- C10: the forward-pressure cascade leaves gaps between its interval
checks: with the tropical flag clear and the 3-day wind maximum below 75, a
forecast WPS strictly between 64 and 65 or strictly between 54 and 55 falls
through every band and yields 15, not the 60 or 80 of the adjacent bands. -/
theorem fpc_forecast_gap (f w : ℚ) (hw : w < 75)
    (hf : (64 < f ∧ f < 65) ∨ (54 < f ∧ f < 55)) :
    fpc_from_forecast f w false = 15 := by
  unfold fpc_from_forecast
  simp only [Bool.false_eq_true, if_false]
  rcases hf with ⟨h1, h2⟩ | ⟨h1, h2⟩ <;>
    (split_ifs with hB hC hD <;>
       first
         | rfl
         | (rcases hB with h3 | h3 <;> linarith)
         | (rcases hC with ⟨h3, h4⟩; linarith)
         | (rcases hD with ⟨h3, h4⟩; linarith))

/-- Witness for C10 at forecast WPS = 64.5, wind max = 0. -/
theorem fpc_forecast_gap_witness : fpc_from_forecast 64.5 0 false = 15 :=
  fpc_forecast_gap 64.5 0 (by norm_num) (Or.inl ⟨by norm_num, by norm_num⟩)

set_option maxHeartbeats 3200000 in
/-- Each breakpoint segment of `pm25_piecewise` is increasing, and adjacent
segments never overlap downwards, so the whole table is monotone. -/
lemma pm25_piecewise_mono {c d : ℚ} (h : c ≤ d) :
    pm25_piecewise c ≤ pm25_piecewise d := by
  unfold pm25_piecewise aqi_linear
  split_ifs <;>
    first
      | (norm_num; linarith)
      | linarith

/-- C7: the PM2.5-to-AQI conversion is monotonically non-decreasing, clamps
negative input to 0 (so the value at -5 equals the value at 0), and
saturates at 500 for inputs above the highest breakpoint, so the value at
1000 is 500. -/
theorem pm25_to_aqi_props :
    (∀ x y : ℚ, x ≤ y → pm25_to_aqi x ≤ pm25_to_aqi y) ∧
    pm25_to_aqi (-5) = pm25_to_aqi 0 ∧
    pm25_to_aqi 1000 = 500 := by
  refine ⟨fun x y h => pm25_piecewise_mono (max_le_max h le_rfl), ?_, ?_⟩
  · norm_num [pm25_to_aqi, max_def]
  · norm_num [pm25_to_aqi, pm25_piecewise, max_def]

/-- Witness for C7 monotonicity at x = 10, y = 20. -/
theorem pm25_to_aqi_props_witness : pm25_to_aqi 10 ≤ pm25_to_aqi 20 :=
  pm25_to_aqi_props.1 10 20 (by norm_num)

/-- Membership in `dedup_spec l` is membership in `l`. -/
lemma dedup_spec_mem (z : String) : ∀ (l : List String),
    z ∈ dedup_spec l ↔ z ∈ l := by
  intro l
  induction l using dedup_spec.induct with
  | case1 => simp [dedup_spec]
  | case2 x xs ih =>
    simp only [dedup_spec, List.mem_cons, ih, List.mem_filter]
    by_cases hz : z = x
    · simp [hz]
    · simp [hz]

/-- `dedup_spec` produces no duplicate entries. -/
lemma dedup_spec_nodup : ∀ (l : List String), (dedup_spec l).Nodup := by
  intro l
  induction l using dedup_spec.induct with
  | case1 => simp [dedup_spec]
  | case2 x xs ih =>
    simp only [dedup_spec, List.nodup_cons]
    refine ⟨fun hx => ?_, ih⟩
    have := (dedup_spec_mem x _).1 hx
    simp [List.mem_filter] at this

/-- Filtering a list preserves the relative order of first occurrences. -/
lemma indexOf_filter_lt (p : String → Bool) :
    ∀ (l : List String) (a b : String), a ∈ l.filter p → b ∈ l.filter p →
      (l.filter p).indexOf a < (l.filter p).indexOf b →
      l.indexOf a < l.indexOf b := by
  intro l
  induction l with
  | nil => intro a b ha _ _; simp at ha
  | cons y ys ih =>
    intro a b ha hb h
    by_cases hp : p y
    · rw [List.filter_cons_of_pos hp] at ha hb h
      by_cases hay : a = y
      · subst hay
        have hb' : b ≠ a := by
          rintro rfl
          simp [List.indexOf_cons_self] at h
        rw [List.indexOf_cons_self] at *
        rw [List.indexOf_cons_ne _ (fun hh => hb' hh.symm)]
        exact Nat.succ_pos _
      · by_cases hby : b = y
        · subst hby
          rw [List.indexOf_cons_self, List.indexOf_cons_ne _ (fun hh => hay hh.symm)] at h
          exact absurd h (Nat.not_lt_zero _)
        · rw [List.indexOf_cons_ne _ (fun hh => hay hh.symm),
            List.indexOf_cons_ne _ (fun hh => hby hh.symm)] at h ⊢
          have ha' : a ∈ ys.filter p := by
            rcases List.mem_cons.1 ha with h1 | h1
            · exact absurd h1 hay
            · exact h1
          have hb'' : b ∈ ys.filter p := by
            rcases List.mem_cons.1 hb with h1 | h1
            · exact absurd h1 hby
            · exact h1
          exact Nat.succ_lt_succ (ih a b ha' hb'' (Nat.lt_of_succ_lt_succ h))
    · rw [List.filter_cons_of_neg hp] at ha hb h
      have hay : a ≠ y := by
        rintro rfl
        exact hp ((List.mem_filter.1 ha).2)
      have hby : b ≠ y := by
        rintro rfl
        exact hp ((List.mem_filter.1 hb).2)
      rw [List.indexOf_cons_ne _ (fun hh => hay hh.symm),
        List.indexOf_cons_ne _ (fun hh => hby hh.symm)]
      exact Nat.succ_lt_succ (ih a b ha hb h)

/-- `dedup_spec l` lists its entries in order of first occurrence in `l`. -/
lemma dedup_spec_pairwise : ∀ (l : List String),
    (dedup_spec l).Pairwise (fun a b => l.indexOf a < l.indexOf b) := by
  intro l
  induction l using dedup_spec.induct with
  | case1 => simp [dedup_spec]
  | case2 x xs ih =>
    simp only [dedup_spec, List.pairwise_cons]
    constructor
    · intro b hb
      have hbmem : b ∈ xs.filter (fun y => y ≠ x) := (dedup_spec_mem b _).1 hb
      have hbx : b ≠ x := by
        have := (List.mem_filter.1 hbmem).2
        simpa using this
      rw [List.indexOf_cons_self, List.indexOf_cons_ne _ (fun hh => hbx hh.symm)]
      exact Nat.succ_pos _
    · refine List.Pairwise.imp_of_mem ?_ ih
      intro a b ha hb hab
      have ha' : a ∈ xs.filter (fun y => y ≠ x) := (dedup_spec_mem a _).1 ha
      have hb' : b ∈ xs.filter (fun y => y ≠ x) := (dedup_spec_mem b _).1 hb
      have hax : a ≠ x := by
        have := (List.mem_filter.1 ha').2
        simpa using this
      have hbx : b ≠ x := by
        have := (List.mem_filter.1 hb').2
        simpa using this
      rw [List.indexOf_cons_ne _ (fun hh => hax hh.symm),
        List.indexOf_cons_ne _ (fun hh => hbx hh.symm)]
      exact Nat.succ_lt_succ (indexOf_filter_lt _ xs a b ha' hb' hab)

/-- The seen-set fold of app/main.py, started from any accumulator, appends
exactly the spec deduplication of the not-yet-seen entries. -/
lemma dedup_first_go (l : List String) : ∀ (acc : List String),
    l.foldl (fun acc x => if x ∈ acc then acc else acc ++ [x]) acc =
      acc ++ dedup_spec (l.filter (fun y => y ∉ acc)) := by
  induction l with
  | nil => intro acc; simp [dedup_spec]
  | cons x xs ih =>
    intro acc
    by_cases hx : x ∈ acc
    · rw [List.foldl_cons, if_pos hx, ih]
      congr 2
      rw [List.filter_cons_of_neg (by simpa using hx)]
    · rw [List.foldl_cons, if_neg hx, ih]
      rw [List.filter_cons_of_pos (by simpa using hx)]
      simp only [dedup_spec]
      rw [List.append_assoc]
      congr 1
      rw [List.singleton_append]
      congr 1
      rw [List.filter_filter]
      congr 1
      apply List.filter_congr
      intro y hy
      simp [List.mem_append, not_or, and_comm]

/-- The seen-set fold of app/main.py computes the spec deduplication. -/
lemma dedup_first_eq_spec (l : List String) : dedup_first l = dedup_spec l := by
  rw [dedup_first, dedup_first_go l []]
  simp

/-- C8: for every alert count and optional AQI input, the gear list of the
daily-status aggregator has no duplicate entries, equals the spec
deduplication of the raw contributions, contains exactly the contributed
items, and lists them in order of first occurrence among the
contributions. -/
theorem daymark_add_items_dedup (n : ℕ) (aqi : Option ℤ) :
    ((daymark n aqi).add_items).Nodup ∧
    (daymark n aqi).add_items = dedup_spec (daymark_add_items_raw n aqi) ∧
    (∀ x, x ∈ (daymark n aqi).add_items ↔ x ∈ daymark_add_items_raw n aqi) ∧
    ((daymark n aqi).add_items).Pairwise
      (fun a b => (daymark_add_items_raw n aqi).indexOf a <
        (daymark_add_items_raw n aqi).indexOf b) := by
  have hadd : (daymark n aqi).add_items =
      dedup_first (daymark_add_items_raw n aqi) := rfl
  rw [hadd, dedup_first_eq_spec]
  exact ⟨dedup_spec_nodup _, rfl, fun x => dedup_spec_mem x _,
    dedup_spec_pairwise _⟩

end Daymark
